import Mathlib

/-!
# Verification of the car-sequencing-with-colors problem evaluator

Shallow embedding of `car_sequencing_color_problem.py`: the instance data
model (`CarSequencingColorProblem`), the candidate evaluator
(`evaluate_solution`), the random candidate generator (`random_solution`)
and the instance-file loader (`load_instance`, modelling `_load_instance`
on the token stream of the file).

Python machine integers are modelled as `Int` (Python integers are
unbounded, so no wrap-around is needed); counts and indices that the
source only ever uses as non-negative loop bounds are modelled as `Nat`.
Python list indexing `xs[i]` is modelled with `List.getD`; every theorem
below only exercises it at in-range indices, where the two agree.
-/

/-- Objective-order code: color, then high-priority, then low-priority. -/
def COLOR_HIGH_LOW : Int := 0

/-- Objective-order code: high-priority, then low-priority, then color. -/
def HIGH_LOW_COLOR : Int := 1

/-- Objective-order code: high-priority, then color, then low-priority. -/
def HIGH_COLOR_LOW : Int := 2

/-- Objective-order code: color, then high-priority (no low). -/
def COLOR_HIGH : Int := 3

/-- Objective-order code: high-priority, then color (no low). -/
def HIGH_COLOR : Int := 4

/-- The instance data of `CarSequencingColorProblem`: one field per
attribute assigned in the Python `__init__`. -/
structure CarSequencingColorProblem where
  nb_positions : Nat
  nb_options : Nat
  paint_batch_limit : Int
  objective_order : Int
  start_position : Nat
  max_cars_per_window : List Int
  window_size : List Nat
  is_priority_option : List Bool
  has_low_priority_options : Bool
  color_class : List Int
  options_data : List (List Bool)
  initial_sequence : List Nat

/-- The structured-parameter branch of `__init__`: every field is stored
exactly as passed, with no transformation. -/
def init_structured (nb_positions nb_options : Nat) (paint_batch_limit objective_order : Int)
    (start_position : Nat) (max_cars_per_window : List Int) (window_size : List Nat)
    (is_priority_option : List Bool) (has_low_priority_options : Bool)
    (color_class : List Int) (options_data : List (List Bool))
    (initial_sequence : List Nat) : CarSequencingColorProblem :=
  { nb_positions := nb_positions
    nb_options := nb_options
    paint_batch_limit := paint_batch_limit
    objective_order := objective_order
    start_position := start_position
    max_cars_per_window := max_cars_per_window
    window_size := window_size
    is_priority_option := is_priority_option
    has_low_priority_options := has_low_priority_options
    color_class := color_class
    options_data := options_data
    initial_sequence := initial_sequence }

/-- Python `range(a, b)` (step 1): the list `[a, a+1, ..., b-1]`, empty when `b ≤ a`. -/
def pyRange (a b : Nat) : List Nat := (List.range (b - a)).map (a + ·)

/-- The sentinel `PENALTY = 1e9` returned for invalid candidates
(modelled as the integer it denotes). -/
def penaltyValue : Int := 1000000000

/-- Python `sorted` on a list of integers: modelled by insertion sort,
which produces the same (unique) sorted arrangement of a list of
integers as Python's Timsort. -/
def pySorted (xs : List Int) : List Int := List.insertionSort (· ≤ ·) xs

/-- `list(range(n))` as a list of integers. -/
def idList (n : Nat) : List Int := (List.range n).map Int.ofNat

/-- The three candidate checks of `evaluate_solution` (length, permutation
via `sorted(solution) == list(range(nb_positions))`, fixed positions).
The source returns the same `PENALTY` at whichever check fails first, so
they are conjoined here. -/
def validCandidate (inst : CarSequencingColorProblem) (solution : List Int) : Bool :=
  (solution.length == inst.nb_positions) &&
  (pySorted solution == idList inst.nb_positions) &&
  ((List.range inst.start_position).all (fun p => solution.getD p 0 == (p : Int)))

/-- `sequence[p] = initial_sequence[solution[p]]`: the class occupying each
position under the candidate ordering. (Meaningful for candidates that
passed validation, whose entries are in `[0, nb_positions)`.) -/
def reconstruct (inst : CarSequencingColorProblem) (solution : List Int) : List Nat :=
  solution.map (fun i => inst.initial_sequence.getD i.toNat 0)

/-- `color_class[c]`, the color of class `c`. -/
def colorOf (inst : CarSequencingColorProblem) (c : Nat) : Int :=
  inst.color_class.getD c 0

/-- `options_data[c][o]`: whether class `c` requires option `o`. -/
def requiresOption (inst : CarSequencingColorProblem) (c o : Nat) : Bool :=
  (inst.options_data.getD c []).getD o false

/-- `objective_color`: for `p` in `range(max(start_position - 1, 0), nb_positions - 1)`,
count the positions where the color changes between `p` and `p+1`.
(`Nat` subtraction truncates at zero, matching the `max( , 0)`.) -/
def objectiveColor (inst : CarSequencingColorProblem) (sequence : List Nat) : Nat :=
  ((pyRange (inst.start_position - 1) (inst.nb_positions - 1)).map
    (fun p => if colorOf inst (sequence.getD p 0) ≠ colorOf inst (sequence.getD (p + 1) 0)
      then 1 else 0)).sum

/-- The inner window loop: `count` of cars in `sequence[j .. j+win-1]`
requiring option `o`. -/
def windowCount (inst : CarSequencingColorProblem) (sequence : List Nat) (o j w : Nat) : Nat :=
  ((List.range w).map
    (fun k => if requiresOption inst (sequence.getD (j + k) 0) o then 1 else 0)).sum

/-- Violations of option `o` summed over all windows
`j ∈ range(max(0, start_position - win + 1), nb_positions - win + 1)`;
each window contributes `max(count - max_allowed, 0)`.
(`start_position + 1 - win` in `Nat` equals `max(0, start_position - win + 1)`.) -/
def optionViolation (inst : CarSequencingColorProblem) (sequence : List Nat) (o : Nat) : Int :=
  let win := inst.window_size.getD o 0
  let max_allowed := inst.max_cars_per_window.getD o 0
  ((pyRange (inst.start_position + 1 - win) (inst.nb_positions + 1 - win)).map
    (fun j => max ((windowCount inst sequence o j win : Int) - max_allowed) 0)).sum

/-- `objective_high_priority`: violations of the high-priority options. -/
def objectiveHigh (inst : CarSequencingColorProblem) (sequence : List Nat) : Int :=
  ((List.range inst.nb_options).map
    (fun o => if inst.is_priority_option.getD o false
      then optionViolation inst sequence o else 0)).sum

/-- `objective_low_priority`: violations of the low-priority options. -/
def objectiveLow (inst : CarSequencingColorProblem) (sequence : List Nat) : Int :=
  ((List.range inst.nb_options).map
    (fun o => if inst.is_priority_option.getD o false
      then 0 else optionViolation inst sequence o)).sum

/-- The lexicographic combination of the three objectives with `M = 10000`,
selected by `objective_order` (fallback: plain sum). -/
def combine (inst : CarSequencingColorProblem) (color high low : Int) : Int :=
  let M : Int := 10000
  if inst.objective_order = COLOR_HIGH_LOW then color * M ^ 2 + high * M + low
  else if inst.objective_order = HIGH_LOW_COLOR then high * M ^ 2 + low * M + color
  else if inst.objective_order = HIGH_COLOR_LOW then high * M ^ 2 + color * M + low
  else if inst.objective_order = COLOR_HIGH then color * M + high
  else if inst.objective_order = HIGH_COLOR then high * M + color
  else color + high + low

/-- `evaluate_solution`: `PENALTY` for an invalid candidate, otherwise the
combined objective of the reconstructed sequence. -/
def evaluate_solution (inst : CarSequencingColorProblem) (solution : List Int) : Int :=
  if validCandidate inst solution then
    let sequence := reconstruct inst solution
    combine inst (objectiveColor inst sequence : Int)
      (objectiveHigh inst sequence) (objectiveLow inst sequence)
  else penaltyValue

/-- `random_solution`: `list(range(start_position))` followed by the shuffled
remainder. The outcome of `random.shuffle` (external randomness) is passed
in as `shuffled`; theorems about it assume `shuffled` is a permutation of
`list(range(start_position, nb_positions))`. -/
def random_solution (inst : CarSequencingColorProblem) (shuffled : List Int) : List Int :=
  ((List.range inst.start_position).map Int.ofNat) ++ shuffled

/-- `list(range(start_position, nb_positions))`: the suffix that
`random_solution` shuffles. -/
def remainingRange (inst : CarSequencingColorProblem) : List Int :=
  (pyRange inst.start_position inst.nb_positions).map Int.ofNat

/-!
## Specification-side definitions

Transcriptions of the specification's wording for the objective
components, to be compared with the code-side definitions above.
-/

/-- Spec wording: the number of positions `j .. j+w-1` whose reconstructed
class requires option `o`. -/
def specWindowCount (inst : CarSequencingColorProblem) (sequence : List Nat)
    (o j w : Nat) : Nat :=
  ((Finset.Ico j (j + w)).filter
    (fun p => requiresOption inst (sequence.getD p 0) o)).card

/-- Spec wording: for option `o` with window size `w` and capacity `cap`,
sum `max(count - cap, 0)` over every window start `j` from
`max(0, start_position - w + 1)` through `nb_positions - w` inclusive
(no window exists when `w` exceeds `nb_positions`; `Nat` subtraction
truncates negative bounds at zero). -/
def specOptionTotal (inst : CarSequencingColorProblem) (sequence : List Nat)
    (o : Nat) : Int :=
  let w := inst.window_size.getD o 0
  let cap := inst.max_cars_per_window.getD o 0
  if w ≤ inst.nb_positions then
    ∑ j in Finset.Icc (inst.start_position + 1 - w) (inst.nb_positions - w),
      max ((specWindowCount inst sequence o j w : Int) - cap) 0
  else 0

/-- Spec wording: option-window violations of the high-priority options,
accumulated option by option. -/
def specHighTotal (inst : CarSequencingColorProblem) (sequence : List Nat) : Int :=
  ∑ o in Finset.range inst.nb_options,
    if inst.is_priority_option.getD o false then specOptionTotal inst sequence o else 0

/-- Spec wording: option-window violations of the low-priority options. -/
def specLowTotal (inst : CarSequencingColorProblem) (sequence : List Nat) : Int :=
  ∑ o in Finset.range inst.nb_options,
    if inst.is_priority_option.getD o false then 0 else specOptionTotal inst sequence o

/-- Spec wording: the number of positions `p` from `max(start_position - 1, 0)`
through `nb_positions - 2` inclusive whose color differs from that of `p + 1`
(no pair exists when `nb_positions < 2`). -/
def specColorChanges (inst : CarSequencingColorProblem) (sequence : List Nat) : Nat :=
  if 2 ≤ inst.nb_positions then
    ((Finset.Icc (inst.start_position - 1) (inst.nb_positions - 2)).filter
      (fun p => colorOf inst (sequence.getD p 0) ≠ colorOf inst (sequence.getD (p + 1) 0))).card
  else 0

/-!
## The instance-file loader

`_load_instance` reads whitespace-separated integer tokens; it is modelled
here directly on the token list. Counts that drive `for _ in range(...)`
loops are taken with `Int.toNat` (a negative count yields an empty loop,
as in Python).
-/

/-- The `objective_order` adjustment applied by `_load_instance` when the
instance has no low-priority options. -/
def normalize_order (order : Int) : Int :=
  if order = COLOR_HIGH_LOW then COLOR_HIGH
  else if order = HIGH_COLOR_LOW then HIGH_COLOR
  else if order = HIGH_LOW_COLOR then HIGH_COLOR
  else order

/-- Accumulated per-option data of the loader's option loop. -/
structure OptData where
  maxw : List Int
  wins : List Nat
  prio : List Bool
  has_low : Bool

/-- The loader's option loop: for each option read
`max_cars_per_window, window_size, is_priority_option` (priority means the
token equals `1`), recording whether any option is low priority. -/
def readOpts : Nat → List Int → Option (OptData × List Int)
  | 0, ts => some (⟨[], [], [], false⟩, ts)
  | k + 1, m :: w :: p :: ts =>
    match readOpts k ts with
    | none => none
    | some (rest, ts') =>
      some (⟨m :: rest.maxw, w.toNat :: rest.wins, (p == 1) :: rest.prio,
        rest.has_low || (p != 1)⟩, ts')
  | _ + 1, _ => none

/-- Accumulated per-class data of the loader's class loop. -/
structure ClassData where
  colors : List Int
  counts : List Int
  opts : List (List Bool)

/-- Read `k` binary option-requirement indicators for one class. -/
def readBools : Nat → List Int → Option (List Bool × List Int)
  | 0, ts => some ([], ts)
  | k + 1, t :: ts =>
    match readBools k ts with
    | none => none
    | some (bs, ts') => some ((t == 1) :: bs, ts')
  | _ + 1, [] => none

/-- The loader's class loop: for each class read its color, its car count
and one indicator per option. -/
def readClasses : Nat → Nat → List Int → Option (ClassData × List Int)
  | 0, _, ts => some (⟨[], [], []⟩, ts)
  | k + 1, nopt, col :: cnt :: ts =>
    match readBools nopt ts with
    | none => none
    | some (bs, ts') =>
      match readClasses k nopt ts' with
      | none => none
      | some (rest, ts'') => some (⟨col :: rest.colors, cnt :: rest.counts, bs :: rest.opts⟩, ts'')
  | _ + 1, _, _ => none

/-- `initial_sequence`: each class index repeated by its car count
(`[c] * count`, empty for a non-positive count). -/
def buildInitial (counts : List Int) : List Nat :=
  (counts.enum.map (fun p => List.replicate p.2.toNat p.1)).flatten

/-- `_load_instance` on the file's token stream: header of six integers,
per-option triples (followed by the `objective_order` adjustment when no
option is low priority), per-class records, and the final check that the
car counts sum to `nb_positions` (`none` models the raised error). -/
def load_instance (tokens : List Int) : Option CarSequencingColorProblem :=
  match tokens with
  | npos :: nopt :: ncls :: pbl :: order :: startp :: rest =>
    (readOpts nopt.toNat rest).bind (fun ro =>
      (readClasses ncls.toNat nopt.toNat ro.2).bind (fun rc =>
        let opts := ro.1
        let cls := rc.1
        let order' := if opts.has_low then order else normalize_order order
        let initial := buildInitial cls.counts
        if initial.length = npos.toNat then
          some ⟨npos.toNat, nopt.toNat, pbl, order', startp.toNat, opts.maxw, opts.wins,
            opts.prio, opts.has_low, cls.colors, cls.opts, initial⟩
        else none))
  | _ => none

/-!
## Dynamically-typed candidates

`evaluate_solution` receives an arbitrary Python value. `PyVal` models the
Python values exercised by the claims about its type guard; `Except Unit`
models a raised `TypeError`. Python's `==` between these values is
structural equality; `<` is defined for two integers and elementwise for
two lists or two tuples, and raises otherwise.
-/

/-- A Python value: an integer, `None`, a list or a tuple. -/
inductive PyVal where
  | int (n : Int)
  | pynone
  | list (xs : List PyVal)
  | tuple (xs : List PyVal)

mutual
/-- Python `==` on values: structural for integers, `None`, lists and
tuples; `false` across different types (it never raises). -/
def pyEqb : PyVal → PyVal → Bool
  | .int a, .int b => a == b
  | .pynone, .pynone => true
  | .list xs, .list ys => pyEqbList xs ys
  | .tuple xs, .tuple ys => pyEqbList xs ys
  | _, _ => false
/-- Python `==` on two element lists: elementwise. -/
def pyEqbList : List PyVal → List PyVal → Bool
  | [], [] => true
  | x :: xs, y :: ys => pyEqb x y && pyEqbList xs ys
  | _, _ => false
end

mutual
/-- Python `<` on values: defined between two integers and (elementwise,
lexicographically) between two lists or two tuples; any other comparison
raises `TypeError`. -/
def pyLt : PyVal → PyVal → Except Unit Bool
  | .int a, .int b => .ok (decide (a < b))
  | .list xs, .list ys => pyLtList xs ys
  | .tuple xs, .tuple ys => pyLtList xs ys
  | _, _ => .error ()
/-- Python `<` on two element lists: skip equal heads, then compare. -/
def pyLtList : List PyVal → List PyVal → Except Unit Bool
  | [], [] => .ok false
  | [], _ :: _ => .ok true
  | _ :: _, [] => .ok false
  | x :: xs, y :: ys => if pyEqb x y then pyLtList xs ys else pyLt x y
end

/-- Insert into a sorted list, comparing with `pyLt` (raising where Python
`sorted` would raise). -/
def pyInsert (x : PyVal) : List PyVal → Except Unit (List PyVal)
  | [] => .ok [x]
  | y :: ys =>
    match pyLt x y with
    | .error e => .error e
    | .ok true => .ok (x :: y :: ys)
    | .ok false =>
      match pyInsert x ys with
      | .error e => .error e
      | .ok r => .ok (y :: r)

/-- Python `sorted` on a list of arbitrary values: raises exactly when an
element comparison raises. -/
def pySortedPy : List PyVal → Except Unit (List PyVal)
  | [] => .ok []
  | x :: xs =>
    match pySortedPy xs with
    | .error e => .error e
    | .ok s => pyInsert x s

/-- `list(range(n))` as Python values. -/
def idPyList (n : Nat) : List PyVal := (List.range n).map (fun i => PyVal.int i)

/-- `isinstance(solution, (list, tuple))`. -/
def isListOrTuple : PyVal → Bool
  | .list _ => true
  | .tuple _ => true
  | _ => false

/-- Reconstruction over Python values: `initial_sequence[i]` raises
`TypeError` unless the index is an integer. -/
def seqOfPy (inst : CarSequencingColorProblem) : List PyVal → Except Unit (List Nat)
  | [] => .ok []
  | .int i :: vs =>
    match seqOfPy inst vs with
    | .error e => .error e
    | .ok r => .ok (inst.initial_sequence.getD i.toNat 0 :: r)
  | _ :: _ => .error ()

/-- The body of `evaluate_solution` for a value that passed the
`isinstance` guard, with its underlying element list. -/
def evalSeq (inst : CarSequencingColorProblem) (xs : List PyVal) : Except Unit Int :=
  if xs.length ≠ inst.nb_positions then .ok penaltyValue
  else
    match pySortedPy xs with
    | .error e => .error e
    | .ok s =>
      if !(pyEqbList s (idPyList inst.nb_positions)) then .ok penaltyValue
      else if (List.range inst.start_position).any
          (fun p => !(pyEqb (xs.getD p .pynone) (.int p))) then .ok penaltyValue
      else
        match seqOfPy inst xs with
        | .error e => .error e
        | .ok sequence =>
          .ok (combine inst (objectiveColor inst sequence : Int)
            (objectiveHigh inst sequence) (objectiveLow inst sequence))

/-- `evaluate_solution` on an arbitrary Python value: the `isinstance`
guard short-circuits (returning `PENALTY` before `len` is ever taken) for
anything that is not a list or tuple. -/
def evaluate_solutionPy (inst : CarSequencingColorProblem) (solution : PyVal) :
    Except Unit Int :=
  match solution with
  | .list xs => evalSeq inst xs
  | .tuple xs => evalSeq inst xs
  | _ => .ok penaltyValue

/-!
## Concrete instances used by witnesses and counterexamples
-/

/-- One option (window 2, capacity 1, high priority) required by the single
class; plan `[0,0,0]`, no fixed positions. -/
def instC1 : CarSequencingColorProblem :=
  ⟨3, 1, 0, 0, 0, [1], [2], [true], false, [0], [[true]], [0, 0, 0]⟩

/-- Five positions of alternating colors, no options, fallback
`objective_order` code `5`. -/
def instAlt : CarSequencingColorProblem :=
  ⟨5, 0, 0, 5, 0, [], [], [], false, [1, 2], [[], []], [0, 1, 0, 1, 0]⟩

/-- Five positions of alternating colors, no options, `objective_order`
code `3` (color, high). -/
def instAlt3 : CarSequencingColorProblem :=
  ⟨5, 0, 0, 3, 0, [], [], [], false, [1, 2], [[], []], [0, 1, 0, 1, 0]⟩

/-- Eleven positions of alternating colors, no options, `objective_order`
code `0`: ten color changes score `10 * 10000^2 = 10^9`. -/
def instBig : CarSequencingColorProblem :=
  ⟨11, 0, 0, 0, 0, [], [], [], false, [0, 1], [[], []], [0, 1, 0, 1, 0, 1, 0, 1, 0, 1, 0]⟩

/-- One low-priority option (window 2, capacity 1) required by the single
class, `objective_order` code `3` (which ignores the low total). -/
def instLow : CarSequencingColorProblem :=
  ⟨2, 1, 0, 3, 0, [1], [2], [false], true, [0], [[true]], [0, 0]⟩

/-- Two positions with one fixed position (`start_position = 1`). -/
def instStart : CarSequencingColorProblem :=
  ⟨2, 0, 0, 0, 1, [], [], [], false, [0], [[]], [0, 0]⟩

/-- A structured-parameter construction with no low-priority options and
the three-term order code `COLOR_HIGH_LOW`. -/
def structuredNoLow : CarSequencingColorProblem :=
  init_structured 2 1 0 COLOR_HIGH_LOW 0 [1] [2] [true] false [0] [[true]] [0, 0]

/-- Token stream of an instance file: 3 positions, 1 option, 1 class,
`paint_batch_limit 5`, `objective_order 0`, `start_position 0`; the option
is `(1, 2, 1)` (high priority), the class is color `0`, count `3`,
requiring the option. -/
def loaderTokens : List Int := [3, 1, 1, 5, 0, 0, 1, 2, 1, 0, 3, 1]

/-- The instance `load_instance loaderTokens` produces: note
`objective_order` has been adjusted from `0` to `3`. -/
def loadedExample : CarSequencingColorProblem :=
  ⟨3, 1, 5, 3, 0, [1], [2], [true], false, [0], [[true]], [0, 0, 0]⟩

/-!
## Helper lemmas
-/

/-- Summing a function over `List.range` agrees with `Finset.range`. -/
theorem list_range_map_sum {M : Type} [AddCommMonoid M] (k : Nat) (g : Nat → M) :
    ((List.range k).map g).sum = ∑ i in Finset.range k, g i := by
  induction k with
  | zero => simp
  | succ n ih =>
    rw [List.range_succ, List.map_append, List.sum_append, Finset.sum_range_succ, ih]
    simp

/-- Summing a function over `pyRange a b` agrees with `Finset.Ico a b`. -/
theorem pyRange_map_sum {M : Type} [AddCommMonoid M] (a b : Nat) (f : Nat → M) :
    ((pyRange a b).map f).sum = ∑ j in Finset.Ico a b, f j := by
  rw [Finset.sum_Ico_eq_sum_range]
  unfold pyRange
  rw [List.map_map, list_range_map_sum]
  rfl

/-- The window occupancy loop agrees with the spec's count of requiring
positions in `j .. j+w-1`. -/
theorem windowCount_eq_spec (inst : CarSequencingColorProblem) (sequence : List Nat)
    (o j w : Nat) : windowCount inst sequence o j w = specWindowCount inst sequence o j w := by
  unfold windowCount specWindowCount
  rw [list_range_map_sum, Finset.card_filter, Finset.sum_Ico_eq_sum_range]
  have h : j + w - j = w := by omega
  rw [h]

/-- The per-option window loop agrees with the spec's per-option total. -/
theorem optionViolation_eq_spec (inst : CarSequencingColorProblem) (sequence : List Nat)
    (o : Nat) : optionViolation inst sequence o = specOptionTotal inst sequence o := by
  unfold optionViolation specOptionTotal
  rw [pyRange_map_sum]
  by_cases hw : inst.window_size.getD o 0 ≤ inst.nb_positions
  · rw [if_pos hw]
    have hb : inst.nb_positions + 1 - inst.window_size.getD o 0 =
        (inst.nb_positions - inst.window_size.getD o 0) + 1 := by omega
    rw [hb, Nat.Ico_succ_right]
    exact Finset.sum_congr rfl (fun j _ => by rw [windowCount_eq_spec])
  · rw [if_neg hw]
    have hb : inst.nb_positions + 1 - inst.window_size.getD o 0 = 0 := by omega
    rw [hb, Finset.Ico_eq_empty (by omega), Finset.sum_empty]

/-- The high-priority accumulator agrees with the spec's high total. -/
theorem objectiveHigh_eq_spec (inst : CarSequencingColorProblem) (sequence : List Nat) :
    objectiveHigh inst sequence = specHighTotal inst sequence := by
  unfold objectiveHigh specHighTotal
  rw [list_range_map_sum]
  exact Finset.sum_congr rfl (fun o _ => by rw [optionViolation_eq_spec])

/-- The low-priority accumulator agrees with the spec's low total. -/
theorem objectiveLow_eq_spec (inst : CarSequencingColorProblem) (sequence : List Nat) :
    objectiveLow inst sequence = specLowTotal inst sequence := by
  unfold objectiveLow specLowTotal
  rw [list_range_map_sum]
  exact Finset.sum_congr rfl (fun o _ => by rw [optionViolation_eq_spec])

/-- The color-change loop agrees with the spec's count over
`max(start_position - 1, 0) .. nb_positions - 2`. -/
theorem objectiveColor_eq_spec (inst : CarSequencingColorProblem) (sequence : List Nat) :
    objectiveColor inst sequence = specColorChanges inst sequence := by
  unfold objectiveColor specColorChanges
  rw [pyRange_map_sum]
  by_cases hn : 2 ≤ inst.nb_positions
  · rw [if_pos hn, Finset.card_filter]
    have hb : inst.nb_positions - 1 = (inst.nb_positions - 2) + 1 := by omega
    rw [hb, Nat.Ico_succ_right]
  · rw [if_neg hn]
    have hb : inst.nb_positions - 1 = 0 := by omega
    rw [hb, Finset.Ico_eq_empty (by omega), Finset.sum_empty]

/-- `idList n` is sorted. -/
theorem idList_sorted (n : Nat) : List.Sorted (· ≤ ·) (idList n) := by
  refine List.Pairwise.map Int.ofNat ?_ (List.pairwise_lt_range n)
  intro a b hab
  exact Int.ofNat_le.mpr (Nat.le_of_lt hab)

/-- `sorted(solution) == list(range(n))` holds exactly when `solution` is a
permutation of `0 .. n-1`. -/
theorem pySorted_eq_idList_iff (n : Nat) (l : List Int) :
    pySorted l = idList n ↔ l.Perm (idList n) := by
  constructor
  · intro h
    have hp := List.perm_insertionSort (· ≤ ·) l
    rw [pySorted] at h
    rw [← h]
    exact hp.symm
  · intro h
    show List.insertionSort (· ≤ ·) l = idList n
    exact List.eq_of_perm_of_sorted ((List.perm_insertionSort (· ≤ ·) l).trans h)
      (List.sorted_insertionSort (· ≤ ·) l) (idList_sorted n)

/-- On a valid candidate, `evaluate_solution` is the combined objective of
the reconstructed sequence. -/
theorem evaluate_solution_of_valid (inst : CarSequencingColorProblem) (solution : List Int)
    (h : validCandidate inst solution = true) :
    evaluate_solution inst solution =
      combine inst (objectiveColor inst (reconstruct inst solution) : Int)
        (objectiveHigh inst (reconstruct inst solution))
        (objectiveLow inst (reconstruct inst solution)) := by
  unfold evaluate_solution
  rw [if_pos h]

/-- On an invalid candidate, `evaluate_solution` is the sentinel. -/
theorem evaluate_solution_of_invalid (inst : CarSequencingColorProblem) (solution : List Int)
    (h : validCandidate inst solution = false) :
    evaluate_solution inst solution = penaltyValue := by
  unfold evaluate_solution
  rw [h]
  rfl

/-- Each per-option violation total is non-negative. -/
theorem optionViolation_nonneg (inst : CarSequencingColorProblem) (sequence : List Nat)
    (o : Nat) : 0 ≤ optionViolation inst sequence o := by
  unfold optionViolation
  apply List.sum_nonneg
  intro x hx
  obtain ⟨j, _, rfl⟩ := List.mem_map.mp hx
  exact le_max_right _ 0

/-- The high-priority total is non-negative. -/
theorem objectiveHigh_nonneg (inst : CarSequencingColorProblem) (sequence : List Nat) :
    0 ≤ objectiveHigh inst sequence := by
  unfold objectiveHigh
  apply List.sum_nonneg
  intro x hx
  obtain ⟨o, _, rfl⟩ := List.mem_map.mp hx
  by_cases hp : inst.is_priority_option.getD o false
  · rw [if_pos hp]; exact optionViolation_nonneg inst sequence o
  · rw [if_neg hp]

/-- The low-priority total is non-negative. -/
theorem objectiveLow_nonneg (inst : CarSequencingColorProblem) (sequence : List Nat) :
    0 ≤ objectiveLow inst sequence := by
  unfold objectiveLow
  apply List.sum_nonneg
  intro x hx
  obtain ⟨o, _, rfl⟩ := List.mem_map.mp hx
  by_cases hp : inst.is_priority_option.getD o false
  · rw [if_pos hp]
  · rw [if_neg hp]; exact optionViolation_nonneg inst sequence o

/-- `idList n` has length `n`. -/
theorem idList_length (n : Nat) : (idList n).length = n := by
  unfold idList
  rw [List.length_map, List.length_range]

/-- Entry `p < n` of `idList n` is `p`. -/
theorem idList_getD (n p : Nat) (hp : p < n) : (idList n).getD p 0 = Int.ofNat p := by
  unfold idList
  rw [List.getD_eq_getElem?_getD, List.getElem?_map, List.getElem?_range hp]
  rfl

/-- The fixed positions followed by the remaining positions are exactly
`list(range(nb_positions))`. -/
theorem idList_split (inst : CarSequencingColorProblem)
    (h : inst.start_position ≤ inst.nb_positions) :
    idList inst.start_position ++ remainingRange inst = idList inst.nb_positions := by
  unfold idList remainingRange pyRange
  have hn : inst.start_position + (inst.nb_positions - inst.start_position) =
      inst.nb_positions := by omega
  rw [← List.map_append, ← List.range_add, hn]

/-!
## Claim theorems
-/

/-- C1: for every valid candidate, the per-option window-violation total of
`evaluate_solution` sums `max(count - cap, 0)` over all windows starting at
`j` from `max(0, start_position - w + 1)` through `nb_positions - w`
inclusive, and accumulates it into the high-priority total when the option
is high priority, else the low-priority total. On the concrete one-option
instance over plan `[0,0,0]` with window 2 and capacity 1, the total is 2. -/
theorem option_window_totals :
    (∀ (inst : CarSequencingColorProblem) (solution : List Int),
      validCandidate inst solution = true →
        (∀ o : Nat, optionViolation inst (reconstruct inst solution) o =
          specOptionTotal inst (reconstruct inst solution) o) ∧
        objectiveHigh inst (reconstruct inst solution) =
          specHighTotal inst (reconstruct inst solution) ∧
        objectiveLow inst (reconstruct inst solution) =
          specLowTotal inst (reconstruct inst solution)) ∧
    (specOptionTotal instC1 (reconstruct instC1 [0, 1, 2]) 0 = 2 ∧
      objectiveHigh instC1 (reconstruct instC1 [0, 1, 2]) = 2) := by
  constructor
  · intro inst solution _
    exact ⟨fun o => optionViolation_eq_spec inst _ o,
      objectiveHigh_eq_spec inst _, objectiveLow_eq_spec inst _⟩
  · exact ⟨by decide, by decide⟩

/-- Witness for C1 at the concrete one-option instance and the identity
candidate. -/
theorem option_window_totals_witness :
    validCandidate instC1 [0, 1, 2] = true ∧
    objectiveHigh instC1 (reconstruct instC1 [0, 1, 2]) =
      specHighTotal instC1 (reconstruct instC1 [0, 1, 2]) :=
  ⟨by decide, (option_window_totals.1 instC1 [0, 1, 2] (by decide)).2.1⟩

/-- C2: for every valid candidate, the color component counts the positions
`p` from `max(start_position - 1, 0)` through `nb_positions - 2` inclusive
whose color differs from position `p + 1` in the reconstructed sequence.
On the five-position alternating instance with the fallback order code, the
color component is 4 and the combined score is 4. -/
theorem color_component :
    (∀ (inst : CarSequencingColorProblem) (solution : List Int),
      validCandidate inst solution = true →
        objectiveColor inst (reconstruct inst solution) =
          specColorChanges inst (reconstruct inst solution)) ∧
    (objectiveColor instAlt (reconstruct instAlt [0, 1, 2, 3, 4]) = 4 ∧
      evaluate_solution instAlt [0, 1, 2, 3, 4] = 4) := by
  constructor
  · intro inst solution _
    exact objectiveColor_eq_spec inst _
  · exact ⟨by decide, by decide⟩

/-- Witness for C2 at the alternating-color instance and the identity
candidate. -/
theorem color_component_witness :
    validCandidate instAlt [0, 1, 2, 3, 4] = true ∧
    objectiveColor instAlt (reconstruct instAlt [0, 1, 2, 3, 4]) =
      specColorChanges instAlt (reconstruct instAlt [0, 1, 2, 3, 4]) :=
  ⟨by decide, color_component.1 instAlt [0, 1, 2, 3, 4] (by decide)⟩

/-- C3: for every valid candidate, `evaluate_solution` combines the three
component totals per the instance's `objective_order` with `M = 10000`
(codes 0–4, any other code falling back to the plain sum). On the
alternating-color instance with order code 3 the score is 40000. -/
theorem combination_formulas :
    (∀ (inst : CarSequencingColorProblem) (solution : List Int),
      validCandidate inst solution = true →
        (inst.objective_order = COLOR_HIGH_LOW → evaluate_solution inst solution =
          (objectiveColor inst (reconstruct inst solution) : Int) * 10000 ^ 2 +
          objectiveHigh inst (reconstruct inst solution) * 10000 +
          objectiveLow inst (reconstruct inst solution)) ∧
        (inst.objective_order = HIGH_LOW_COLOR → evaluate_solution inst solution =
          objectiveHigh inst (reconstruct inst solution) * 10000 ^ 2 +
          objectiveLow inst (reconstruct inst solution) * 10000 +
          (objectiveColor inst (reconstruct inst solution) : Int)) ∧
        (inst.objective_order = HIGH_COLOR_LOW → evaluate_solution inst solution =
          objectiveHigh inst (reconstruct inst solution) * 10000 ^ 2 +
          (objectiveColor inst (reconstruct inst solution) : Int) * 10000 +
          objectiveLow inst (reconstruct inst solution)) ∧
        (inst.objective_order = COLOR_HIGH → evaluate_solution inst solution =
          (objectiveColor inst (reconstruct inst solution) : Int) * 10000 +
          objectiveHigh inst (reconstruct inst solution)) ∧
        (inst.objective_order = HIGH_COLOR → evaluate_solution inst solution =
          objectiveHigh inst (reconstruct inst solution) * 10000 +
          (objectiveColor inst (reconstruct inst solution) : Int)) ∧
        (inst.objective_order ≠ COLOR_HIGH_LOW → inst.objective_order ≠ HIGH_LOW_COLOR →
          inst.objective_order ≠ HIGH_COLOR_LOW → inst.objective_order ≠ COLOR_HIGH →
          inst.objective_order ≠ HIGH_COLOR →
          evaluate_solution inst solution =
            (objectiveColor inst (reconstruct inst solution) : Int) +
            objectiveHigh inst (reconstruct inst solution) +
            objectiveLow inst (reconstruct inst solution))) ∧
    evaluate_solution instAlt3 [0, 1, 2, 3, 4] = 40000 := by
  constructor
  · intro inst solution hv
    rw [evaluate_solution_of_valid inst solution hv]
    simp only [combine, COLOR_HIGH_LOW, HIGH_LOW_COLOR, HIGH_COLOR_LOW, COLOR_HIGH, HIGH_COLOR]
    refine ⟨?_, ?_, ?_, ?_, ?_, ?_⟩
    · intro h0
      rw [if_pos h0]
    · intro h1
      rw [if_neg (by omega), if_pos h1]
    · intro h2
      rw [if_neg (by omega), if_neg (by omega), if_pos h2]
    · intro h3
      rw [if_neg (by omega), if_neg (by omega), if_neg (by omega), if_pos h3]
    · intro h4
      rw [if_neg (by omega), if_neg (by omega), if_neg (by omega), if_neg (by omega), if_pos h4]
    · intro n0 n1 n2 n3 n4
      rw [if_neg n0, if_neg n1, if_neg n2, if_neg n3, if_neg n4]
  · decide

/-- Witness for C3 at the alternating-color instance with order code 3. -/
theorem combination_formulas_witness :
    validCandidate instAlt3 [0, 1, 2, 3, 4] = true ∧
    evaluate_solution instAlt3 [0, 1, 2, 3, 4] =
      (objectiveColor instAlt3 (reconstruct instAlt3 [0, 1, 2, 3, 4]) : Int) * 10000 +
      objectiveHigh instAlt3 (reconstruct instAlt3 [0, 1, 2, 3, 4]) :=
  ⟨by decide, (combination_formulas.1 instAlt3 [0, 1, 2, 3, 4] (by decide)).2.2.2.1 (by decide)⟩

/-- C4: a candidate whose length differs from `nb_positions`, or which is
not a permutation of `0 .. nb_positions - 1`, evaluates to the sentinel. -/
theorem rejects_non_permutation (inst : CarSequencingColorProblem) (solution : List Int)
    (h : solution.length ≠ inst.nb_positions ∨ ¬ solution.Perm (idList inst.nb_positions)) :
    evaluate_solution inst solution = penaltyValue := by
  apply evaluate_solution_of_invalid
  cases h with
  | inl hl =>
    have hb : (solution.length == inst.nb_positions) = false := beq_eq_false_iff_ne.mpr hl
    simp [validCandidate, hb]
  | inr hr =>
    have hb : (pySorted solution == idList inst.nb_positions) = false :=
      beq_eq_false_iff_ne.mpr (fun he => hr ((pySorted_eq_idList_iff _ _).mp he))
    simp [validCandidate, hb]

/-- Witness for C4: the empty candidate on a two-position instance. -/
theorem rejects_non_permutation_witness :
    (([] : List Int).length ≠ instStart.nb_positions ∨
      ¬ ([] : List Int).Perm (idList instStart.nb_positions)) ∧
    evaluate_solution instStart [] = penaltyValue :=
  ⟨Or.inl (by decide), rejects_non_permutation instStart [] (Or.inl (by decide))⟩

/-- C5: a candidate that is a permutation of `0 .. nb_positions - 1` but
moves a position before `start_position` evaluates to the sentinel. -/
theorem rejects_fixed_position_change (inst : CarSequencingColorProblem)
    (solution : List Int) (p : Nat)
    (hs : inst.start_position ≤ inst.nb_positions)
    (hperm : solution.Perm (idList inst.nb_positions))
    (hp : p < inst.start_position)
    (hne : solution.getD p 0 ≠ (p : Int)) :
    evaluate_solution inst solution = penaltyValue := by
  apply evaluate_solution_of_invalid
  have hall : ((List.range inst.start_position).all
      (fun q => solution.getD q 0 == (q : Int))) = false := by
    cases hca : (List.range inst.start_position).all (fun q => solution.getD q 0 == (q : Int)) with
    | false => rfl
    | true =>
      exact absurd (beq_iff_eq.mp (List.all_eq_true.mp hca p (List.mem_range.mpr hp))) hne
  unfold validCandidate
  rw [hall, Bool.and_false]

/-- Witness for C5: the swap `[1, 0]` on the instance with one fixed
position. -/
theorem rejects_fixed_position_change_witness :
    instStart.start_position ≤ instStart.nb_positions ∧
    ([1, 0] : List Int).Perm (idList instStart.nb_positions) ∧
    0 < instStart.start_position ∧
    (([1, 0] : List Int).getD 0 0 ≠ ((0 : Nat) : Int)) ∧
    evaluate_solution instStart [1, 0] = penaltyValue := by
  have hperm : ([1, 0] : List Int).Perm (idList instStart.nb_positions) :=
    List.Perm.swap 0 1 []
  exact ⟨by decide, hperm, by decide, by decide,
    rejects_fixed_position_change instStart [1, 0] 0 (by decide) hperm (by decide) (by decide)⟩

/-- C9: for `start_position ≤ nb_positions` and any shuffle outcome of the
free suffix, `random_solution` returns a permutation of
`0 .. nb_positions - 1` that keeps every position before `start_position`
at its own index, and so passes the candidate validation of
`evaluate_solution`. -/
theorem random_solution_valid (inst : CarSequencingColorProblem) (shuffled : List Int)
    (h1 : inst.start_position ≤ inst.nb_positions)
    (h2 : shuffled.Perm (remainingRange inst)) :
    (random_solution inst shuffled).Perm (idList inst.nb_positions) ∧
    (∀ p, p < inst.start_position →
      (random_solution inst shuffled).getD p 0 = (p : Int)) ∧
    validCandidate inst (random_solution inst shuffled) = true := by
  have hperm : (random_solution inst shuffled).Perm (idList inst.nb_positions) := by
    show (idList inst.start_position ++ shuffled).Perm (idList inst.nb_positions)
    rw [← idList_split inst h1]
    exact h2.append_left (idList inst.start_position)
  have hfix : ∀ p, p < inst.start_position →
      (random_solution inst shuffled).getD p 0 = (p : Int) := by
    intro p hp
    show (idList inst.start_position ++ shuffled).getD p 0 = (p : Int)
    rw [List.getD_append _ _ _ _ (by rw [idList_length]; exact hp)]
    exact idList_getD inst.start_position p hp
  refine ⟨hperm, hfix, ?_⟩
  have hlen : ((random_solution inst shuffled).length == inst.nb_positions) = true :=
    beq_iff_eq.mpr (by rw [hperm.length_eq, idList_length])
  have hsort : (pySorted (random_solution inst shuffled) == idList inst.nb_positions) = true :=
    beq_iff_eq.mpr ((pySorted_eq_idList_iff _ _).mpr hperm)
  have hall : ((List.range inst.start_position).all
      (fun p => (random_solution inst shuffled).getD p 0 == (p : Int))) = true :=
    List.all_eq_true.mpr (fun p hp =>
      beq_iff_eq.mpr (hfix p (List.mem_range.mp hp)))
  unfold validCandidate
  rw [hlen, hsort, hall]
  rfl

/-- Witness for C9: the instance with one fixed position and the
(untouched) shuffle outcome `[1]`. -/
theorem random_solution_valid_witness :
    instStart.start_position ≤ instStart.nb_positions ∧
    ([1] : List Int).Perm (remainingRange instStart) ∧
    validCandidate instStart (random_solution instStart [1]) = true := by
  have h2 : ([1] : List Int).Perm (remainingRange instStart) := List.Perm.refl _
  exact ⟨by decide, h2, (random_solution_valid instStart [1] (by decide) h2).2.2⟩

/-- Counterexample to C6: on the eleven-position alternating-color instance
with order code 0, the identity candidate is valid yet its real score is
`10 * 10000^2 = 10^9`, exactly the sentinel — not strictly below it. -/
theorem sentinel_reached_by_valid_candidate :
    validCandidate instBig [0, 1, 2, 3, 4, 5, 6, 7, 8, 9, 10] = true ∧
    evaluate_solution instBig [0, 1, 2, 3, 4, 5, 6, 7, 8, 9, 10] = penaltyValue :=
  ⟨by decide, by decide⟩

/-- C6 (amended): on a valid candidate the score stays strictly below the
sentinel provided each of the three component totals is at most 9 (with
`M = 10000` a component of 10 already lifts a three-term code to `10^9`). -/
theorem score_below_sentinel_of_small_components (inst : CarSequencingColorProblem)
    (solution : List Int)
    (hv : validCandidate inst solution = true)
    (hc : (objectiveColor inst (reconstruct inst solution) : Int) ≤ 9)
    (hh : objectiveHigh inst (reconstruct inst solution) ≤ 9)
    (hl : objectiveLow inst (reconstruct inst solution) ≤ 9) :
    evaluate_solution inst solution < penaltyValue := by
  rw [evaluate_solution_of_valid inst solution hv]
  have hc0 : (0 : Int) ≤ (objectiveColor inst (reconstruct inst solution) : Int) :=
    Int.natCast_nonneg _
  have hh0 := objectiveHigh_nonneg inst (reconstruct inst solution)
  have hl0 := objectiveLow_nonneg inst (reconstruct inst solution)
  have hpow : ((10000 : Int) ^ 2) = 100000000 := by norm_num
  simp only [combine, penaltyValue, hpow]
  split_ifs <;> omega

/-- Witness for the amended C6 at the low-priority instance (components
0, 0, 1). -/
theorem score_below_sentinel_of_small_components_witness :
    validCandidate instLow [0, 1] = true ∧
    evaluate_solution instLow [0, 1] < penaltyValue :=
  ⟨by decide, score_below_sentinel_of_small_components instLow [0, 1]
    (by decide) (by decide) (by decide) (by decide)⟩

/-- Counterexample to C7: the structured-parameter constructor stores
`objective_order = COLOR_HIGH_LOW` unchanged even though the instance has
no low-priority options — it is not collapsed to `COLOR_HIGH`. -/
theorem structured_init_skips_normalization :
    structuredNoLow.has_low_priority_options = false ∧
    structuredNoLow.objective_order = COLOR_HIGH_LOW ∧
    structuredNoLow.objective_order ≠ COLOR_HIGH := by
  refine ⟨rfl, rfl, ?_⟩
  decide

/-- C7 (amended): only the file loader adjusts `objective_order`. The
structured-parameter constructor stores it verbatim; a successfully loaded
file instance carries `objective_order` equal to the raw fifth token when
some option is low priority, and its `normalize_order` image (the claimed
collapse mapping `0 ↦ 3`, `2 ↦ 4`, `1 ↦ 4`, two-term codes unchanged)
otherwise. -/
theorem normalization_only_on_file_load :
    (∀ (nb_positions nb_options : Nat) (paint_batch_limit objective_order : Int)
        (start_position : Nat) (max_cars_per_window : List Int) (window_size : List Nat)
        (is_priority_option : List Bool) (has_low_priority_options : Bool)
        (color_class : List Int) (options_data : List (List Bool))
        (initial_sequence : List Nat),
      (init_structured nb_positions nb_options paint_batch_limit objective_order
        start_position max_cars_per_window window_size is_priority_option
        has_low_priority_options color_class options_data
        initial_sequence).objective_order = objective_order) ∧
    (∀ (tokens : List Int) (inst : CarSequencingColorProblem),
      load_instance tokens = some inst →
        inst.objective_order = if inst.has_low_priority_options then tokens.getD 4 0
          else normalize_order (tokens.getD 4 0)) ∧
    (normalize_order COLOR_HIGH_LOW = COLOR_HIGH ∧
      normalize_order HIGH_COLOR_LOW = HIGH_COLOR ∧
      normalize_order HIGH_LOW_COLOR = HIGH_COLOR ∧
      normalize_order COLOR_HIGH = COLOR_HIGH ∧
      normalize_order HIGH_COLOR = HIGH_COLOR) := by
  refine ⟨fun _ _ _ _ _ _ _ _ _ _ _ _ => rfl, ?_, by decide⟩
  intro tokens inst h
  rcases tokens with _ | ⟨npos, tokens⟩
  · exact absurd h (by simp [load_instance])
  rcases tokens with _ | ⟨nopt, tokens⟩
  · exact absurd h (by simp [load_instance])
  rcases tokens with _ | ⟨ncls, tokens⟩
  · exact absurd h (by simp [load_instance])
  rcases tokens with _ | ⟨pbl, tokens⟩
  · exact absurd h (by simp [load_instance])
  rcases tokens with _ | ⟨order, tokens⟩
  · exact absurd h (by simp [load_instance])
  rcases tokens with _ | ⟨startp, rest⟩
  · exact absurd h (by simp [load_instance])
  simp only [load_instance, Option.bind_eq_some] at h
  obtain ⟨⟨opts, rest₂⟩, _, h⟩ := h
  obtain ⟨⟨cls, rest₃⟩, _, h⟩ := h
  have hgd : (npos :: nopt :: ncls :: pbl :: order :: startp :: rest).getD 4 0 = order := rfl
  simp only at h
  split_ifs at h with hlen hlow
  · injection h with h
    subst h
    simp [hgd, hlow]
  · injection h with h
    subst h
    simp [hgd, hlow]

/-- Witness for the amended C7: the loader run on `loaderTokens` adjusts the
raw order code `0` to `3`. -/
theorem normalization_only_on_file_load_witness :
    load_instance loaderTokens = some loadedExample ∧
    loadedExample.objective_order =
      (if loadedExample.has_low_priority_options then loaderTokens.getD 4 0
        else normalize_order (loaderTokens.getD 4 0)) :=
  ⟨rfl, normalization_only_on_file_load.2.1 loaderTokens loadedExample rfl⟩

/-- Counterexample to C8: on the instance with order code 3 and a
low-priority option, the identity candidate is valid, scores `0`, yet its
low-priority window-violation total is `1` — a capacity violation exists in
the scored range. -/
theorem zero_score_with_window_violation :
    validCandidate instLow [0, 1] = true ∧
    evaluate_solution instLow [0, 1] = 0 ∧
    objectiveLow instLow (reconstruct instLow [0, 1]) = 1 :=
  ⟨by decide, by decide, by decide⟩

/-- C8 (amended): on a valid candidate the score is zero exactly when the
components that the selected order code combines are all zero: for the
two-term codes 3 and 4 these are the color and high-priority totals (the
low-priority total is ignored); for every other code, all three totals. -/
theorem zero_score_iff_combined_components_zero (inst : CarSequencingColorProblem)
    (solution : List Int)
    (hv : validCandidate inst solution = true) :
    ((inst.objective_order = COLOR_HIGH ∨ inst.objective_order = HIGH_COLOR) →
      (evaluate_solution inst solution = 0 ↔
        objectiveColor inst (reconstruct inst solution) = 0 ∧
        objectiveHigh inst (reconstruct inst solution) = 0)) ∧
    (inst.objective_order ≠ COLOR_HIGH → inst.objective_order ≠ HIGH_COLOR →
      (evaluate_solution inst solution = 0 ↔
        objectiveColor inst (reconstruct inst solution) = 0 ∧
        objectiveHigh inst (reconstruct inst solution) = 0 ∧
        objectiveLow inst (reconstruct inst solution) = 0)) := by
  rw [evaluate_solution_of_valid inst solution hv]
  have hc0 : (0 : Int) ≤ (objectiveColor inst (reconstruct inst solution) : Int) :=
    Int.natCast_nonneg _
  have hh0 := objectiveHigh_nonneg inst (reconstruct inst solution)
  have hl0 := objectiveLow_nonneg inst (reconstruct inst solution)
  have hpow : ((10000 : Int) ^ 2) = 100000000 := by norm_num
  simp only [combine, COLOR_HIGH_LOW, HIGH_LOW_COLOR, HIGH_COLOR_LOW, COLOR_HIGH,
    HIGH_COLOR, hpow]
  constructor
  · rintro (h3 | h4)
    · rw [if_neg (by omega), if_neg (by omega), if_neg (by omega), if_pos h3]
      omega
    · rw [if_neg (by omega), if_neg (by omega), if_neg (by omega), if_neg (by omega),
        if_pos h4]
      omega
  · intro n3 n4
    by_cases h0 : inst.objective_order = 0
    · rw [if_pos h0]
      omega
    · by_cases h1 : inst.objective_order = 1
      · rw [if_neg h0, if_pos h1]
        omega
      · by_cases h2 : inst.objective_order = 2
        · rw [if_neg h0, if_neg h1, if_pos h2]
          omega
        · rw [if_neg h0, if_neg h1, if_neg h2, if_neg n3, if_neg n4]
          omega

/-- Witness for the amended C8 at the low-priority instance with order
code 3: the score is zero although the (ignored) low total is not. -/
theorem zero_score_iff_combined_components_zero_witness :
    validCandidate instLow [0, 1] = true ∧
    (instLow.objective_order = COLOR_HIGH ∨ instLow.objective_order = HIGH_COLOR) ∧
    (evaluate_solution instLow [0, 1] = 0 ↔
      objectiveColor instLow (reconstruct instLow [0, 1]) = 0 ∧
      objectiveHigh instLow (reconstruct instLow [0, 1]) = 0) :=
  ⟨by decide, Or.inl (by decide),
    (zero_score_iff_combined_components_zero instLow [0, 1] (by decide)).1
      (Or.inl (by decide))⟩

/-- Counterexample to C10: `evaluate_solution` can raise on list input —
sorting `[0, None]` compares an integer with `None`, a `TypeError`, so not
every input value is guarded into the sentinel. -/
theorem mixed_list_input_raises :
    evaluate_solutionPy instLow (.list [.int 0, .pynone]) = .error () := rfl

/-- C10 (amended): any value that is not a list or tuple is caught by the
`isinstance` guard and yields the sentinel without any exception (the guard
short-circuits before `len`); list inputs with non-integer elements may
still raise. -/
theorem non_sequence_input_returns_sentinel (inst : CarSequencingColorProblem)
    (v : PyVal) (h : isListOrTuple v = false) :
    evaluate_solutionPy inst v = .ok penaltyValue := by
  cases v with
  | int n => rfl
  | pynone => rfl
  | list xs => exact absurd h (by simp [isListOrTuple])
  | tuple xs => exact absurd h (by simp [isListOrTuple])

/-- Witness for the amended C10 at the integer input `5`. -/
theorem non_sequence_input_returns_sentinel_witness :
    isListOrTuple (.int 5) = false ∧
    evaluate_solutionPy instLow (.int 5) = .ok penaltyValue :=
  ⟨rfl, non_sequence_input_returns_sentinel instLow (.int 5) rfl⟩
